import Mathlib

/-!
Shallow embedding of the spreadsheet-to-typed-table normalization
pipeline of `src/app.py` (water-consumption dashboard): fixed-region
extraction (read_excel with header offset, nrows and usecols), type
coercion (pd.to_numeric with coercion of failures to missing, and
pd.to_datetime with a day/abbreviated-month format followed by the
year-1900 fixup), row filtering (dropna over the daily columns),
supplier-name filtering, and the top-level error handling of the
script (the single try/except around the dashboard body, and the
locale call that sits outside of it).
-/

namespace WaterApp

/-- Exact decimal number: the value is num / 10 ^ exp.  Models the
numeric values arising from parsing decimal text (the program holds
them as floats; every value appearing in this development is exactly
representable). -/
structure DecNum where
  num : Int
  exp : Nat
  deriving DecidableEq

/-- Calendar date as handled by the program. -/
structure Date where
  year : Nat
  month : Nat
  day : Nat
  deriving DecidableEq

/-- Numeric value of a list of decimal digit characters. -/
def natOfDigits (cs : List Char) : Nat :=
  cs.foldl (fun a c => 10 * a + (c.toNat - 48)) 0

/-- Leading sign of a numeral, split off from the remaining text. -/
def stripSign (cs : List Char) : Int × List Char :=
  if cs.headD ' ' = '-' then (-1, cs.tail)
  else if cs.headD ' ' = '+' then (1, cs.tail)
  else (1, cs)

/-- Unsigned decimal numeral: digits, optionally followed by a point
and further digits, with at least one digit overall. -/
def parseDecCore (cs : List Char) : Option DecNum :=
  if cs.dropWhile Char.isDigit = [] then
    if cs.takeWhile Char.isDigit = [] then none
    else some ⟨(natOfDigits (cs.takeWhile Char.isDigit) : Int), 0⟩
  else if (cs.dropWhile Char.isDigit).headD ' ' = '.' ∧
      (cs.dropWhile Char.isDigit).tail.dropWhile Char.isDigit = [] ∧
      (cs.takeWhile Char.isDigit ≠ [] ∨ (cs.dropWhile Char.isDigit).tail ≠ []) then
    some ⟨(natOfDigits (cs.takeWhile Char.isDigit ++ (cs.dropWhile Char.isDigit).tail) : Int),
      (cs.dropWhile Char.isDigit).tail.length⟩
  else none

/-- Surrounding whitespace removed, as the numeric parser tolerates. -/
def trimWs (cs : List Char) : List Char :=
  ((cs.dropWhile Char.isWhitespace).reverse.dropWhile Char.isWhitespace).reverse

/-- Exponent field after the e: an optional sign and at least one
digit. -/
def parseExpDigits (cs : List Char) : Option Int :=
  if (stripSign cs).2 ≠ [] ∧ (stripSign cs).2.all Char.isDigit = true then
    some ((stripSign cs).1 * (natOfDigits (stripSign cs).2 : Int))
  else none

def pow10 : Nat → Int
  | 0 => 1
  | n + 1 => 10 * pow10 n

/-- Apply a decimal exponent to an exact decimal value. -/
def applyExp (d : DecNum) (e : Int) : DecNum :=
  if (d.exp : Int) ≤ e then ⟨d.num * pow10 (e - (d.exp : Int)).toNat, 0⟩
  else ⟨d.num, ((d.exp : Int) - e).toNat⟩

/-- Model of the numeric coercion at lines 159-160 (pd.to_numeric with
errors coerce, applied per cell): surrounding whitespace, an optional
sign, a decimal numeral and an optional exponent field, with any
failure becoming missing.  Spellings of infinite floats (inf,
infinity) are accepted by the real parser as non-missing, non-decimal
values and are left out of the exact-decimal domain; nan spellings
become missing in both. -/
def parseDecimal (s : String) : Option DecNum :=
  match parseDecCore ((stripSign (trimWs s.data)).2.takeWhile
      (fun c => !(c == 'e' || c == 'E'))) with
  | none => none
  | some d =>
    match (stripSign (trimWs s.data)).2.dropWhile (fun c => !(c == 'e' || c == 'E')) with
    | [] => some ⟨(stripSign (trimWs s.data)).1 * d.num, d.exp⟩
    | _ :: ecs =>
      match parseExpDigits ecs with
      | none => none
      | some e =>
        some ⟨(stripSign (trimWs s.data)).1 * (applyExp d e).num, (applyExp d e).exp⟩

/-- Follows the specification's words for currency/quantity coercion,
for comparison with the numeric coercion the program performs: keep
only digits, comma and period; when a comma is present the periods are
thousands separators (removed) and the comma is the decimal point;
then parse as a decimal. -/
def specCoerceCurrency (s : String) : Option DecNum :=
  parseDecimal ⟨
    (fun kept =>
      if kept.contains ',' then
        (kept.filter (fun c => !(c == '.'))).map (fun c => if c = ',' then '.' else c)
      else kept)
    (s.data.filter (fun c => c.isDigit || c == ',' || c == '.'))⟩

/-- Portuguese abbreviated month names, as delivered by the pt-BR
locale the script installs at startup (line 12) and consumed by the
day/abbreviated-month date format. -/
def monthsPt : List String :=
  ["jan", "fev", "mar", "abr", "mai", "jun",
   "jul", "ago", "set", "out", "nov", "dez"]

/-- Length of each month in year 1900 (not a leap year), the default
year of the no-year date format. -/
def monthLength1900 : Nat → Nat
  | 1 => 31 | 2 => 28 | 3 => 31 | 4 => 30 | 5 => 31 | 6 => 30
  | 7 => 31 | 8 => 31 | 9 => 30 | 10 => 31 | 11 => 30 | 12 => 31
  | _ => 0

def isLeap (y : Nat) : Bool :=
  (y % 4 == 0) && ((y % 100 != 0) || (y % 400 == 0))

def monthLength (y m : Nat) : Nat :=
  if m = 2 ∧ isLeap y = true then 29 else monthLength1900 m

/-- Split a character list at every slash. -/
def splitOnSlash : List Char → List (List Char)
  | [] => [[]]
  | c :: rest =>
    if c = '/' then [] :: splitOnSlash rest
    else
      match splitOnSlash rest with
      | [] => [[c]]
      | g :: gs => (c :: g) :: gs

def digitsOnly (cs : List Char) : Bool := cs.all Char.isDigit

/-- One- or two-digit numeric field (the day of a date). -/
def parseDay2 (cs : List Char) : Option Nat :=
  if cs ≠ [] ∧ cs.length ≤ 2 ∧ digitsOnly cs = true then some (natOfDigits cs)
  else none

/-- One- or two-digit month number between 1 and 12. -/
def parseMonthNum (cs : List Char) : Option Nat :=
  if cs ≠ [] ∧ cs.length ≤ 2 ∧ digitsOnly cs = true ∧
      1 ≤ natOfDigits cs ∧ natOfDigits cs ≤ 12 then
    some (natOfDigits cs)
  else none

/-- Four-digit year field. -/
def parseYear4 (cs : List Char) : Option Nat :=
  if cs.length = 4 ∧ digitsOnly cs = true then some (natOfDigits cs) else none

def lowerStr (s : String) : String := ⟨s.data.map Char.toLower⟩

/-- Position of an abbreviated month name (case folded) in the
installed locale's month table, as a month number. -/
def monthOfAbbrev (months : List String) (cs : List Char) : Option Nat :=
  match months.findIdx? (fun m => m == lowerStr ⟨cs⟩) with
  | some i => some (i + 1)
  | none => none

/-- Primary date parse of line 138: strptime-style day, slash,
abbreviated month name, no year.  The year defaults to 1900 and the
day is validated against the month length in that year. -/
def parsePrimary (months : List String) (s : String) : Option Date :=
  match splitOnSlash s.data with
  | [dcs, mcs] =>
    match parseDay2 dcs, monthOfAbbrev months mcs with
    | some d, some m =>
      if 1 ≤ d ∧ d ≤ monthLength1900 m then some ⟨1900, m, d⟩ else none
    | _, _ => none
  | _ => none

/-- Fallback date parse of line 146 (pd.to_datetime with dayfirst and
no format: the permissive parser), modelled on numeric
day/month/four-digit-year dates; the real parser accepts further
shapes, which this development does not rely on. -/
def parseFallback (s : String) : Option Date :=
  match splitOnSlash s.data with
  | [dcs, mcs, ycs] =>
    match parseDay2 dcs, parseMonthNum mcs, parseYear4 ycs with
    | some d, some m, some y =>
      if 1 ≤ d ∧ d ≤ monthLength y m then some ⟨y, m, d⟩ else none
    | _, _, _ => none
  | _ => none

/-- Line 134: remove every caret and comma character from the raw date
text. -/
def cleanDateList (cs : List Char) : List Char :=
  cs.filter (fun c => !(c == '^' || c == ','))

def cleanDateStr (s : String) : String := ⟨cleanDateList s.data⟩

/-- Lines 137-150: the whole-column date conversion.  The primary
conversion carries errors coerce, so each unparsable cell becomes
missing and the conversion never raises; the ValueError handler that
holds the permissive fallback conversion therefore never runs. -/
def convertDateColumn (col : List String) : List (Option Date) :=
  col.map (fun s => parsePrimary monthsPt (cleanDateStr s))

/-- The per-cell conversion the specification describes: when the
primary day/abbreviated-month parse fails on a cell, fall back to the
permissive parse on that cell. -/
def convertDateColumnClaim (col : List String) : List (Option Date) :=
  col.map (fun s =>
    match parsePrimary monthsPt (cleanDateStr s) with
    | some d => some d
    | none => parseFallback (cleanDateStr s))

/-- Line 153. -/
def ANO_CORRIGIDO : Nat := 2025

/-- Lines 154-156: a parsed date whose year is 1900 (the default of
the no-year format) gets the reference year; otherwise it is kept;
missing stays missing. -/
def fixYear (o : Option Date) : Option Date :=
  match o with
  | none => none
  | some d =>
    if d.year = 1900 then some ⟨ANO_CORRIGIDO, d.month, d.day⟩ else some d

/-- One raw row of the daily region (columns Q:S of the sheet). -/
structure RawDaily where
  data : Option String
  volume : Option String
  valor : Option String
  deriving DecidableEq

/-- One coerced row of the daily table. -/
structure DailyRow where
  data : Option Date
  volume : Option DecNum
  valor : Option DecNum
  deriving DecidableEq

/-- astype(str) renders a missing cell as the text nan. -/
def cellStr : Option String → String
  | none => "nan"
  | some s => s

/-- Column coercions applied to one daily row: date cleaning, the
primary date parse, the year fixup, and numeric coercion of the two
value columns. -/
def coerceDaily (r : RawDaily) : DailyRow :=
  ⟨fixYear (parsePrimary monthsPt (cleanDateStr (cellStr r.data))),
   r.volume.bind parseDecimal,
   r.valor.bind parseDecimal⟩

/-- All three daily fields present. -/
def rowComplete (r : DailyRow) : Bool :=
  r.data.isSome && r.volume.isSome && r.valor.isSome

/-- Line 163: dropna over Data, Volume_M3_Diario and Valor_Diario. -/
def rowFilter (t : List DailyRow) : List DailyRow := t.filter rowComplete

/-- The daily normalization pipeline: per-row coercion, then the row
filter.  No reordering happens anywhere in it. -/
def dailyPipeline (rows : List RawDaily) : List DailyRow :=
  rowFilter (rows.map coerceDaily)

/-- Fixed-region read (read_excel with header offset, nrows, usecols):
skip the rows up to and including the header row, keep at most n data
rows, and slice each row to the inclusive column range. -/
def extract (sheet : List (List (Option String))) (hdr n lo hi : Nat) :
    List (List (Option String)) :=
  ((sheet.drop (hdr + 1)).take n).map (fun r => (r.drop lo).take (hi + 1 - lo))

/-- The designated key column (first column of the region) is missing. -/
def blankKey (r : List (Option String)) : Bool := (r.headD none).isNone

/-- dropna on the key column (line 82 and the analogous region reads). -/
def dropBlankKey (t : List (List (Option String))) : List (List (Option String)) :=
  t.filter (fun r => !(blankKey r))

/-- Enough physical columns for the daily region Q:S. -/
def structOkDaily (sheet : List (List (Option String))) : Bool :=
  sheet.all (fun r => decide (19 ≤ r.length))

def rawOfRow (r : List (Option String)) : RawDaily :=
  ⟨r.getD 0 none, r.getD 1 none, r.getD 2 none⟩

/-- The single user-facing diagnostic of the handler at line 523. -/
def CRITICAL_MSG : String :=
  "ERRO CRITICO ao construir o Dashboard. Verifique o formato das tabelas."

/-- Lines 70-524: the guarded body of the script.  Structural failures
(unreadable file, region columns out of bounds) raise and are caught
by the single handler at line 522, which shows one diagnostic;
per-cell coercion failures never raise and only drop rows. -/
def runApp (file : Option (List (List (Option String)))) :
    Except String (List DailyRow) :=
  match file with
  | none => Except.error CRITICAL_MSG
  | some sheet =>
    if structOkDaily sheet = true then
      Except.ok (dailyPipeline ((extract sheet 3 502 16 18).map rawOfRow))
    else Except.error CRITICAL_MSG

def LOCALE_ERROR_MSG : String := "locale.Error: unsupported locale setting"

/-- Host configuration: whether the pt-BR locale is installed. -/
inductive HostLocale
  | ptBRAvailable
  | ptBRMissing
  deriving DecidableEq

/-- Line 12: locale.setlocale(LC_ALL, pt_BR.UTF-8) raises when the
host lacks that locale; the call sits before, and outside of, the
try/except of the dashboard body. -/
def setlocalePtBR : HostLocale → Except String Unit
  | HostLocale.ptBRAvailable => Except.ok ()
  | HostLocale.ptBRMissing => Except.error LOCALE_ERROR_MSG

/-- The whole script: the locale call, then the guarded body. -/
def runScript (host : HostLocale)
    (file : Option (List (List (Option String)))) :
    Except String (List DailyRow) :=
  match setlocalePtBR host with
  | Except.error e => Except.error e
  | Except.ok _ => runApp file

/-- Line 368: the fixed weekday vocabulary used for chart ordering. -/
def ordem_semanal : List String :=
  ["Segunda-feira", "Terça-feira", "Quarta-feira", "Quinta-feira",
   "Sexta-feira", "Sábado", "Domingo"]

/-- Date order (year, then month, then day). -/
def dateLe (a b : Date) : Bool :=
  decide (a.year < b.year ∨ (a.year = b.year ∧
    (a.month < b.month ∨ (a.month = b.month ∧ a.day ≤ b.day))))

def rowLe (a b : DailyRow) : Bool :=
  match a.data, b.data with
  | some x, some y => dateLe x y
  | _, _ => true

/-- The table is in ascending date order. -/
def sortedByDate (t : List DailyRow) : Prop :=
  List.Pairwise (fun a b => rowLe a b = true) t

instance decSortedByDate (t : List DailyRow) : Decidable (sortedByDate t) :=
  List.instDecidablePairwise t

/-- One raw row of a supplier region. -/
structure SupplierRow where
  fornecedor : Option String
  volume : Option DecNum
  deriving DecidableEq

def hasSubAux (pat : List Char) : List Char → Bool
  | [] => pat.isEmpty
  | c :: rest => pat.isPrefixOf (c :: rest) || hasSubAux pat rest

/-- Substring containment on the character lists of two strings. -/
def hasSub (s pat : String) : Bool := hasSubAux pat.data s.data

/-- Lines 178 and 181: str.contains with the pattern total|nan, case
folded (pandas folds the haystack; the pattern is already lower case),
after astype(str) has rendered a missing name as the text nan. -/
def supplierKeep (r : SupplierRow) : Bool :=
  !(hasSub (lowerStr (cellStr r.fornecedor)) "total" ||
    hasSub (lowerStr (cellStr r.fornecedor)) "nan")

/-- Lines 178-182: keep the rows passing the name filter, then dropna
on the name column. -/
def filterSuppliers (t : List SupplierRow) : List SupplierRow :=
  (t.filter supplierKeep).filter (fun r => r.fornecedor.isSome)

/-- Concrete rows used in the statements below. -/
def rowZero : DailyRow := ⟨some ⟨2025, 1, 2⟩, some ⟨0, 0⟩, some ⟨10, 0⟩⟩

def badRaw : RawDaily := ⟨some "abc", some "abc", some "abc"⟩

def rawA : RawDaily := ⟨some "03/jan", some "10", some "20"⟩

def rawB : RawDaily := ⟨some "02/jan", some "10", some "20"⟩

def demoSheet : List (List (Option String)) :=
  [[], [], [], [], [some "a", some "b"], [none, some "c"]]

/-! Helper lemmas. -/

theorem length_filter_not_add_countP {α : Type} (p : α → Bool) (l : List α) :
    (l.filter (fun a => !(p a))).length + l.countP p = l.length := by
  induction l with
  | nil => rfl
  | cons a t ih =>
    cases h : p a <;>
      simp [List.filter_cons, List.countP_cons, h] <;> omega

/-! Claim theorems. -/

/-- Claim C1 fails on the code: the row filter at line 163 is only a
dropna over the three daily columns, so a row whose volume is the
decimal zero survives it, and the resulting clean table is not
guaranteed to carry strictly positive volumes. -/
theorem c1_counterexample :
    rowFilter [rowZero] = [rowZero] ∧ rowZero.volume = some ⟨0, 0⟩ ∧
    ¬(∀ r ∈ rowFilter [rowZero], ∀ v ∈ r.volume, 0 < v.num) := by
  refine ⟨rfl, rfl, ?_⟩
  intro h
  have h0 := h rowZero (by simp [rowFilter, rowComplete, rowZero]) ⟨0, 0⟩ rfl
  exact absurd h0 (by decide)

/-- Claim C1 amended: the row filter drops exactly the rows with a
missing required field; every surviving row has all three fields
present, and a complete row is never dropped, whatever the sign of its
volume or amount. -/
theorem c1_theorem (t : List DailyRow) (r : DailyRow) :
    (r ∈ rowFilter t →
      r.data.isSome = true ∧ r.volume.isSome = true ∧ r.valor.isSome = true) ∧
    (r ∈ t → rowComplete r = true → r ∈ rowFilter t) := by
  constructor
  · intro hr
    have hcomp := (List.mem_filter.mp hr).2
    simp only [rowComplete, Bool.and_eq_true] at hcomp
    exact ⟨hcomp.1.1, hcomp.1.2, hcomp.2⟩
  · intro h1 h2
    exact List.mem_filter.mpr ⟨h1, h2⟩

/-- Witness for the amended claim C1 at the concrete zero-volume row. -/
theorem c1_witness :
    rowZero.data.isSome = true ∧ rowZero.volume.isSome = true ∧
    rowZero.valor.isSome = true :=
  (c1_theorem [rowZero] rowZero).1 (by simp [rowFilter, rowComplete, rowZero])

/-- Claim C2 fails on the code: the numeric coercion at lines 159-160
is a plain numeric parse with no character stripping and no
decimal-comma handling, so the locale-formatted currency string
yields missing, while the coercion the specification describes
yields the decimal 1234.56. -/
theorem c2_counterexample :
    parseDecimal "R$ 1.234,56" = none ∧
    specCoerceCurrency "R$ 1.234,56" = some ⟨123456, 2⟩ := by
  constructor <;> decide

/-- Claim C2 amended: coercion performs no character stripping and no
comma/period locale handling — it is the plain numeric parse of
pd.to_numeric, which accepts ordinary numerals (exponent notation and
surrounding whitespace included), so the locale-formatted currency
string "R$ 1.234,56" yields missing rather than 1234.56, a plain
numeral such as "1234.56" parses to its decimal value, and a parse
failure such as "abc" yields missing rather than raising. -/
theorem c2_theorem :
    parseDecimal "abc" = none ∧
    parseDecimal "R$ 1.234,56" = none ∧
    parseDecimal "1234.56" = some ⟨123456, 2⟩ ∧
    parseDecimal "1e3" = some ⟨1000, 0⟩ ∧
    parseDecimal " 1.5" = some ⟨15, 1⟩ := by
  refine ⟨by decide, by decide, by decide, by decide, by decide⟩

/-- Claim C3 is right about the intended behaviour and the code
breaks it: the primary conversion coerces per-cell failures to
missing instead of raising, so the ValueError handler holding the
permissive fallback never runs, and a date only the fallback accepts
comes out missing instead of parsed. -/
theorem c3_theorem :
    convertDateColumn ["15/05/2024"] = [none] ∧
    convertDateColumnClaim ["15/05/2024"] = [some ⟨2024, 5, 15⟩] := by
  constructor <;> decide

/-- Claim C4 confirmed: missing dates stay missing, a parsed date with
the epoch default year 1900 gets the reference year 2025, and a parsed
date with any other year passes through unchanged. -/
theorem c4_theorem (d : Date) :
    fixYear none = none ∧
    (d.year = 1900 → fixYear (some d) = some ⟨ANO_CORRIGIDO, d.month, d.day⟩) ∧
    (d.year ≠ 1900 → fixYear (some d) = some d) := by
  refine ⟨rfl, ?_, ?_⟩ <;> intro h <;> simp [fixYear, h]

/-- Witness for claim C4 at concrete dates on both sides of the year
condition. -/
theorem c4_witness :
    fixYear (some ⟨1900, 1, 2⟩) = some ⟨ANO_CORRIGIDO, 1, 2⟩ ∧
    fixYear (some ⟨2024, 5, 15⟩) = some ⟨2024, 5, 15⟩ :=
  ⟨(c4_theorem ⟨1900, 1, 2⟩).2.1 rfl, (c4_theorem ⟨2024, 5, 15⟩).2.2 (by decide)⟩

/-- Claim C5 confirmed: on a sheet tall enough for the declared
region, extraction followed by the key-column drop returns at most the
declared row count, and the shortfall is exactly the number of rows
whose key column is missing. -/
theorem c5_theorem (sheet : List (List (Option String))) (hdr n lo hi : Nat)
    (h : hdr + 1 + n ≤ sheet.length) :
    (dropBlankKey (extract sheet hdr n lo hi)).length ≤ n ∧
    (dropBlankKey (extract sheet hdr n lo hi)).length
      + (extract sheet hdr n lo hi).countP blankKey = n := by
  have hlen : (extract sheet hdr n lo hi).length = n := by
    simp only [extract, List.length_map, List.length_take, List.length_drop]
    omega
  constructor
  · calc (dropBlankKey (extract sheet hdr n lo hi)).length
        ≤ (extract sheet hdr n lo hi).length := List.length_filter_le _ _
      _ = n := hlen
  · have hmain := length_filter_not_add_countP blankKey (extract sheet hdr n lo hi)
    rw [hlen] at hmain
    exact hmain

/-- Witness for claim C5 at a concrete six-row sheet with one
blank-key row inside the region. -/
theorem c5_witness :
    (dropBlankKey (extract demoSheet 3 2 0 1)).length ≤ 2 ∧
    (dropBlankKey (extract demoSheet 3 2 0 1)).length
      + (extract demoSheet 3 2 0 1).countP blankKey = 2 :=
  c5_theorem demoSheet 3 2 0 1 (by decide)

/-- Claim C6 fails on the code: the pipeline never sorts, so an input
whose two rows are both accepted but arrive in descending date order
produces a clean table that is not in ascending date order. -/
theorem c6_counterexample :
    (dailyPipeline [rawA, rawB]).length = 2 ∧
    ¬ sortedByDate (dailyPipeline [rawA, rawB]) := by
  constructor
  · decide
  · intro h
    have hred : dailyPipeline [rawA, rawB] =
        [⟨some ⟨2025, 1, 3⟩, some ⟨10, 0⟩, some ⟨20, 0⟩⟩,
         ⟨some ⟨2025, 1, 2⟩, some ⟨10, 0⟩, some ⟨20, 0⟩⟩] := by decide
    rw [hred] at h
    have h2 := (List.pairwise_cons.mp h).1 _ (List.mem_cons_self _ _)
    exact absurd h2 (by decide)

/-- Claim C6 amended: the pipeline output is an order-preserving
subsequence of the coerced input rows, so the clean table is in
ascending date order exactly when the source rows already are; no sort
is applied. -/
theorem c6_theorem (rows : List RawDaily) :
    List.Sublist (dailyPipeline rows) (rows.map coerceDaily) ∧
    (sortedByDate (rows.map coerceDaily) → sortedByDate (dailyPipeline rows)) := by
  constructor
  · exact List.filter_sublist _
  · intro h
    exact h.sublist (List.filter_sublist _)

/-- Witness for the amended claim C6 at a concrete ascending input. -/
theorem c6_witness : sortedByDate (dailyPipeline [rawB, rawA]) :=
  (c6_theorem [rawB, rawA]).2 (by decide)

/-- Claim C7 confirmed: corrupting one row to unparsable text only
reduces the number of output rows and never raises, while a
structurally bad sheet (or an unreadable file) makes the guarded body
abort with the one diagnostic of the line-522 handler. -/
theorem c7_theorem (l1 l2 : List RawDaily) (r : RawDaily)
    (sheet bad : List (List (Option String))) :
    (dailyPipeline (l1 ++ badRaw :: l2)).length ≤
      (dailyPipeline (l1 ++ r :: l2)).length ∧
    (structOkDaily sheet = true → ∃ t, runApp (some sheet) = Except.ok t) ∧
    (structOkDaily bad = false → runApp (some bad) = Except.error CRITICAL_MSG) ∧
    runApp none = Except.error CRITICAL_MSG := by
  refine ⟨?_, ?_, ?_, rfl⟩
  · have hbad : rowComplete (coerceDaily badRaw) = false := by decide
    simp only [dailyPipeline, rowFilter, List.map_append, List.map_cons,
      List.filter_append, List.filter_cons, hbad, List.length_append]
    cases hres : rowComplete (coerceDaily r) <;> simp [hres]
  · intro hok
    refine ⟨dailyPipeline ((extract sheet 3 502 16 18).map rawOfRow), ?_⟩
    simp [runApp, hok]
  · intro hb
    simp [runApp, hb]

/-- Witness for claim C7 at concrete sheets: the empty sheet is
structurally fine and succeeds; a sheet with one empty row lacks the
daily columns and yields the single diagnostic. -/
theorem c7_witness :
    (∃ t, runApp (some ([] : List (List (Option String)))) = Except.ok t) ∧
    runApp (some [([] : List (Option String))]) = Except.error CRITICAL_MSG :=
  ⟨(c7_theorem [] [] badRaw [] [[]]).2.1 rfl,
   (c7_theorem [] [] badRaw [] [[]]).2.2.1 (by decide)⟩

/-- Claim C8 fails on the code: the script installs the pt-BR locale
at startup outside the exception handler, so the very same upload
produces different output under different host locale configurations
(a rendered dashboard where pt-BR is installed, an uncaught locale
error where it is not). -/
theorem c8_counterexample :
    runScript HostLocale.ptBRAvailable (some []) ≠
      runScript HostLocale.ptBRMissing (some []) := by
  intro hcontra
  have h1 : runScript HostLocale.ptBRAvailable (some []) = Except.ok [] := rfl
  have h2 : runScript HostLocale.ptBRMissing (some []) =
      Except.error LOCALE_ERROR_MSG := rfl
  rw [h1, h2] at hcontra
  exact Except.noConfusion hcontra

/-- Claim C8 amended: the weekday vocabulary is a fixed seven-entry
list in code, but it only fixes chart ordering; the output still
depends on the host locale configuration, because on a host without
the pt-BR locale the script aborts with an uncaught locale error
before the guarded body, while on a host with it the script behaves
as the guarded body. -/
theorem c8_theorem :
    ordem_semanal.length = 7 ∧
    (∀ f, runScript HostLocale.ptBRMissing f = Except.error LOCALE_ERROR_MSG) ∧
    (∀ f, runScript HostLocale.ptBRAvailable f = runApp f) :=
  ⟨rfl, fun _ => rfl, fun _ => rfl⟩

/-- Claim C9 confirmed: the row filter is idempotent — re-filtering an
already filtered table with the same rule set changes nothing. -/
theorem c9_theorem (t : List DailyRow) :
    rowFilter (rowFilter t) = rowFilter t := by
  simp [rowFilter, List.filter_filter]

/-- Claim C10 confirmed: every supplier row surviving the filter has a
present name that, case folded, contains neither total nor nan as a
substring; concretely, the Total Geral summary row and the genuine
supplier Fernanda are both dropped while SABESP survives. -/
theorem c10_theorem (t : List SupplierRow) (r : SupplierRow) :
    (r ∈ filterSuppliers t →
      r.fornecedor.isSome = true ∧
      hasSub (lowerStr (cellStr r.fornecedor)) "total" = false ∧
      hasSub (lowerStr (cellStr r.fornecedor)) "nan" = false) ∧
    filterSuppliers
      [⟨some "Total Geral", some ⟨100, 0⟩⟩, ⟨some "Fernanda", some ⟨30, 0⟩⟩,
       ⟨some "SABESP", some ⟨70, 0⟩⟩] = [⟨some "SABESP", some ⟨70, 0⟩⟩] := by
  constructor
  · intro hr
    have h2 := List.mem_filter.mp hr
    have h1 := List.mem_filter.mp h2.1
    have hk := h1.2
    simp only [supplierKeep, Bool.not_eq_true', Bool.or_eq_false_iff] at hk
    exact ⟨h2.2, hk.1, hk.2⟩
  · decide

/-- Witness for claim C10 at a concrete surviving supplier row. -/
theorem c10_witness :
    (⟨some "SABESP", some ⟨70, 0⟩⟩ : SupplierRow).fornecedor.isSome = true ∧
    hasSub (lowerStr (cellStr (some "SABESP"))) "total" = false ∧
    hasSub (lowerStr (cellStr (some "SABESP"))) "nan" = false :=
  (c10_theorem [⟨some "SABESP", some ⟨70, 0⟩⟩]
    ⟨some "SABESP", some ⟨70, 0⟩⟩).1 (by decide)

end WaterApp
